import Mathlib

/-!
Sensor tasks (`task_sensor.c`, `task_sensor.h`).

A shallow embedding of the sensor lifecycle helpers of `task_sensor.c`
(initialize, store, load, configure) and of its two lookups
(find backend by name, find provider by data fields), followed by theorems
about them.

Conventions of the embedding:

* A C pointer that may be `NULL` is an `Option`; a pointer into an array is the
  index of the element it points to.
* A function that mutates the structure behind a pointer returns the new value
  of that structure next to its status.
* The external collaborators (sensor backend, flash task, log sink) act on an
  abstract hardware state `σ`; every call made to one of them is appended to a
  call log kept in the `World`, so that "was not called" and "was called once
  with these arguments" are statements about that log.
-/

namespace TaskSensor

/-! ## Types of the driver headers -/

/-- Status word `ruuvi_driver_status_t`: a set of error flags. -/
abbrev ruuvi_driver_status_t := Nat

/-- Modelled from the spec: `ruuvi_driver_error.h` is not part of this source
tree. The status is a flag set whose empty value is success. -/
def RUUVI_DRIVER_SUCCESS : ruuvi_driver_status_t := 0

/-- Modelled from the spec: flag of `ruuvi_driver_error.h` (not in this tree)
for an operation requested in a state that does not allow it. -/
def RUUVI_DRIVER_ERROR_INVALID_STATE : ruuvi_driver_status_t := 1 <<< 5

/-- Modelled from the spec: flag of `ruuvi_driver_error.h` (not in this tree)
for an absent required reference. -/
def RUUVI_DRIVER_ERROR_NULL : ruuvi_driver_status_t := 1 <<< 11

/-- Modelled from the spec: flag of `ruuvi_driver_error.h` (not in this tree)
for a collaborator that is in the middle of an operation. -/
def RUUVI_DRIVER_ERROR_BUSY : ruuvi_driver_status_t := 1 <<< 14

/-- Modelled from the spec: `ruuvi_driver_sensor_configuration_t` is declared in
`ruuvi_driver_sensor.h`, outside this tree; it is a fixed-size binary blob, here
the list of its bytes. -/
abbrev ruuvi_driver_sensor_configuration_t := List Nat

/-- The C expression `sizeof (sensor->configuration)`: the number of bytes of
the configuration blob. -/
def sizeof_configuration (configuration : ruuvi_driver_sensor_configuration_t) : Nat :=
  configuration.length

/-- Bus descriptor `ruuvi_driver_bus_t`. -/
abbrev ruuvi_driver_bus_t := Nat

/-- Bit mask of data fields `ruuvi_driver_sensor_data_fields_t`. -/
abbrev ruuvi_driver_sensor_data_fields_t := Nat

/-- Signature of the backend's `configuration_set`. Its first argument, the
sensor, is represented by the sensor's `name` and `provides`. It receives a
configuration, returns a status, and writes the configuration it has applied
into the configuration object it was handed; that written value is the second
component of the result. -/
abbrev ruuvi_driver_configuration_fp (σ : Type) :=
  σ → String → ruuvi_driver_sensor_data_fields_t → ruuvi_driver_sensor_configuration_t →
    ruuvi_driver_status_t × ruuvi_driver_sensor_configuration_t × σ

/-- Sensor control structure `ruuvi_driver_sensor_t`, restricted to the members
`task_sensor.c` reads: `name`, `provides` and the `configuration_set` slot. -/
structure ruuvi_driver_sensor_t (σ : Type) where
  name : String
  provides : ruuvi_driver_sensor_data_fields_t
  configuration_set : Option (ruuvi_driver_configuration_fp σ)

/-- Signature `ruuvi_driver_sensor_init_fp`: called with a pointer to the sensor
control structure, a bus and a handle; fills the control structure in and
returns a status. -/
abbrev ruuvi_driver_sensor_init_fp (σ : Type) :=
  σ → ruuvi_driver_sensor_t σ → ruuvi_driver_bus_t → Nat →
    ruuvi_driver_status_t × ruuvi_driver_sensor_t σ × σ

/-- Sensor context `rt_sensor_ctx_t` of `task_sensor.h`. -/
structure rt_sensor_ctx_t (σ : Type) where
  sensor : ruuvi_driver_sensor_t σ
  init : Option (ruuvi_driver_sensor_init_fp σ)
  configuration : ruuvi_driver_sensor_configuration_t
  nvm_file : Nat
  nvm_record : Nat
  sensor_handle : Nat
  sensor_bus : ruuvi_driver_bus_t

/-! ## Collaborators -/

/-- One call made to a collaborator, with the arguments passed by value. -/
inductive Call where
  | init (bus : ruuvi_driver_bus_t) (handle : Nat)
  | configuration_set (configuration : ruuvi_driver_sensor_configuration_t)
  | task_flash_busy
  | task_flash_store (file record : Nat) (data : ruuvi_driver_sensor_configuration_t)
      (len : Nat)
  | task_flash_load (file record : Nat) (len : Nat)
  | LOG (msg : String)
  | log_sensor_configuration (configuration : ruuvi_driver_sensor_configuration_t)
  deriving DecidableEq, Repr

/-- The state outside the sensor context: the hardware state the collaborators
act on, and the log of the calls made to them so far. -/
structure World (σ : Type) where
  hw : σ
  calls : List Call

/-- Append one call to the log. -/
def World.record {σ : Type} (w : World σ) (c : Call) : World σ :=
  { hw := w.hw, calls := w.calls ++ [c] }

/-- The flash task functions used by `task_sensor.c`; they are declared outside
this tree and are taken as parameters. `load` receives the destination buffer
and returns its contents after the call. -/
structure FlashTask (σ : Type) where
  task_flash_busy : σ → Bool
  task_flash_store : σ → Nat → Nat → ruuvi_driver_sensor_configuration_t → Nat →
    ruuvi_driver_status_t × σ
  task_flash_load : σ → Nat → Nat → ruuvi_driver_sensor_configuration_t → Nat →
    ruuvi_driver_status_t × ruuvi_driver_sensor_configuration_t × σ

/-- Result of a lifecycle function: the status, the sensor context after the
call (absent when the pointer was `NULL`), and the world after the call. -/
abbrev Outcome (σ : Type) := ruuvi_driver_status_t × Option (rt_sensor_ctx_t σ) × World σ

/-! ## Lifecycle functions -/

/-- Function `rt_sensor_initialize` (task_sensor.c, lines 42-56). The source
writes `sensor->bus` and `sensor->handle` for the members the header names
`sensor_bus` and `sensor_handle`. -/
def rt_sensor_initialize {σ : Type} (w : World σ) (sensor : Option (rt_sensor_ctx_t σ)) :
    Outcome σ :=
  let err_code := RUUVI_DRIVER_SUCCESS
  match sensor with
  | none => (err_code ||| RUUVI_DRIVER_ERROR_NULL, none, w)
  | some s =>
    match s.init with
    | none => (err_code ||| RUUVI_DRIVER_ERROR_NULL, some s, w)
    | some init =>
      let w1 := w.record (Call.init s.sensor_bus s.sensor_handle)
      let r := init w1.hw s.sensor s.sensor_bus s.sensor_handle
      (r.1, some { s with sensor := r.2.1 }, { hw := r.2.2, calls := w1.calls })

/-- Function `rt_sensor_store` (task_sensor.c, lines 66-83). The source uses
`err_code` without declaring it in this function; it is the local of the three
sibling functions, starting at `RUUVI_DRIVER_SUCCESS`. -/
def rt_sensor_store {σ : Type} (nvm : FlashTask σ) (w : World σ)
    (sensor : Option (rt_sensor_ctx_t σ)) : Outcome σ :=
  let err_code := RUUVI_DRIVER_SUCCESS
  match sensor with
  | none => (err_code ||| RUUVI_DRIVER_ERROR_NULL, none, w)
  | some s =>
    let w1 := w.record Call.task_flash_busy
    if nvm.task_flash_busy w1.hw then
      (err_code ||| RUUVI_DRIVER_ERROR_BUSY, some s, w1)
    else
      let w2 := w1.record (Call.task_flash_store s.nvm_file s.nvm_record s.configuration
        (sizeof_configuration s.configuration))
      let r := nvm.task_flash_store w2.hw s.nvm_file s.nvm_record s.configuration
        (sizeof_configuration s.configuration)
      (err_code ||| r.1, some s, { hw := r.2, calls := w2.calls })

/-- Function `rt_sensor_load` (task_sensor.c, lines 93-112). -/
def rt_sensor_load {σ : Type} (nvm : FlashTask σ) (w : World σ)
    (sensor : Option (rt_sensor_ctx_t σ)) : Outcome σ :=
  let err_code := RUUVI_DRIVER_SUCCESS
  match sensor with
  | none => (err_code ||| RUUVI_DRIVER_ERROR_NULL, none, w)
  | some s =>
    let w1 := w.record Call.task_flash_busy
    if nvm.task_flash_busy w1.hw then
      (err_code ||| RUUVI_DRIVER_ERROR_BUSY, some s, w1)
    else
      let w2 := w1.record (Call.task_flash_load s.nvm_file s.nvm_record
        (sizeof_configuration s.configuration))
      let r := nvm.task_flash_load w2.hw s.nvm_file s.nvm_record s.configuration
        (sizeof_configuration s.configuration)
      (err_code ||| r.1, some { s with configuration := r.2.1 },
        { hw := r.2.2, calls := w2.calls })

/-- Function `rt_sensor_configure` (task_sensor.c, lines 123-147). The call on
line 141 passes `sensor->sensor` and `sensor->configuration` themselves, not
their addresses (compare `&(sensor->configuration)` in store and load): the
backend works on a copy, and what it writes there (`r.2.1`) does not reach the
context. -/
def rt_sensor_configure {σ : Type} (w : World σ) (sensor : Option (rt_sensor_ctx_t σ)) :
    Outcome σ :=
  let err_code := RUUVI_DRIVER_SUCCESS
  match sensor with
  | none => (err_code ||| RUUVI_DRIVER_ERROR_NULL, none, w)
  | some s =>
    match s.sensor.configuration_set with
    | none => (err_code ||| RUUVI_DRIVER_ERROR_INVALID_STATE, some s, w)
    | some configuration_set =>
      let w1 := w.record (Call.LOG "\r\nAttempting to configure ")
      let w2 := w1.record (Call.LOG s.sensor.name)
      let w3 := w2.record (Call.LOG " with:\r\n")
      let w4 := w3.record (Call.log_sensor_configuration s.configuration)
      let w5 := w4.record (Call.configuration_set s.configuration)
      let r := configuration_set w5.hw s.sensor.name s.sensor.provides s.configuration
      let w6 : World σ := { hw := r.2.2, calls := w5.calls }
      let w7 := w6.record (Call.LOG "Actual configuration:\r\n")
      let w8 := w7.record (Call.log_sensor_configuration s.configuration)
      (err_code ||| r.1, some s, w8)

/-! ## Lookups -/

/-- Modelled from the spec: `strcmp` of the C library (`string.h`), on strings
given without their terminator. It is zero exactly when the two strings hold
the same bytes; otherwise only its sign is specified. -/
def strcmp (a b : String) : Int :=
  if a = b then 0 else if a.data < b.data then -1 else 1

/-- The `for` loop of `rt_sensor_find_backend` (lines 172-178), entered with
loop variable `ii` and current `p_sensor`. `none` is a read past the end of
`sensor_list`, which C leaves undefined. -/
@[semireducible]
def rt_sensor_find_backend_loop {σ : Type} (sensor_list : List (rt_sensor_ctx_t σ))
    (count : Nat) (name : String) (ii : Nat) (p_sensor : Option Nat) : Option (Option Nat) :=
  if count > ii ∧ p_sensor = none then
    match sensor_list[ii]? with
    | none => none
    | some c =>
      rt_sensor_find_backend_loop sensor_list count name (ii + 1)
        (if 0 = strcmp c.sensor.name name then some ii else p_sensor)
  else some p_sensor
termination_by count - ii
decreasing_by omega

/-- Function `rt_sensor_find_backend` (task_sensor.c, lines 167-181). The
result `some (some i)` is the pointer `&sensor_list[i]`, `some none` is `NULL`. -/
def rt_sensor_find_backend {σ : Type} (sensor_list : List (rt_sensor_ctx_t σ))
    (count : Nat) (name : String) : Option (Option Nat) :=
  rt_sensor_find_backend_loop sensor_list count name 0 none

/-- The `for` loop of `rt_sensor_find_provider` (lines 198-204), entered with
loop variable `ii` and current `p_sensor`. `none` is a read past the end of
`sensor_list`, which C leaves undefined. -/
@[semireducible]
def rt_sensor_find_provider_loop {σ : Type} (sensor_list : List (ruuvi_driver_sensor_t σ))
    (count : Nat) (values : ruuvi_driver_sensor_data_fields_t) (ii : Nat)
    (p_sensor : Option Nat) : Option (Option Nat) :=
  if count > ii ∧ p_sensor = none then
    match sensor_list[ii]? with
    | none => none
    | some c =>
      rt_sensor_find_provider_loop sensor_list count values (ii + 1)
        (if (values &&& c.provides) = values then some ii else p_sensor)
  else some p_sensor
termination_by count - ii
decreasing_by omega

/-- Function `rt_sensor_find_provider` (task_sensor.c, lines 193-207). The
source reads `sensor_list[ii].sensor.provides` on an array of
`ruuvi_driver_sensor_t`, whose elements carry `provides` directly. The result
`some (some i)` is the pointer `&sensor_list[i]`, `some none` is `NULL`. -/
def rt_sensor_find_provider {σ : Type} (sensor_list : List (ruuvi_driver_sensor_t σ))
    (count : Nat) (values : ruuvi_driver_sensor_data_fields_t) : Option (Option Nat) :=
  rt_sensor_find_provider_loop sensor_list count values 0 none

/-! ## Example data -/

/-- A sensor control structure without a `configuration_set` operation. -/
def sensor_of {σ : Type} (name : String) (provides : Nat) : ruuvi_driver_sensor_t σ :=
  { name := name, provides := provides, configuration_set := none }

/-- The three capabilities of the lookup scenario, providing `0b001`, `0b011`
and `0b010`. -/
def example_providers : List (ruuvi_driver_sensor_t Unit) :=
  [sensor_of "a" 0b001, sensor_of "b" 0b011, sensor_of "c" 0b010]

/-- A context around a sensor control structure: no init function, the given
configuration and flash keys, handle 0 on bus 0. -/
def ctx_of {σ : Type} (sensor : ruuvi_driver_sensor_t σ)
    (configuration : ruuvi_driver_sensor_configuration_t) (file record : Nat) :
    rt_sensor_ctx_t σ :=
  { sensor := sensor, init := none, configuration := configuration, nvm_file := file,
    nvm_record := record, sensor_handle := 0, sensor_bus := 0 }

/-- Modelled from the spec: flag of `ruuvi_driver_error.h` (not in this tree)
for a record that does not exist. -/
def RUUVI_DRIVER_ERROR_NOT_FOUND : ruuvi_driver_status_t := 1 <<< 2

/-- Modelled from the spec: flag of `ruuvi_driver_error.h` (not in this tree)
for a failed self test, used as an example of a backend-specific status. -/
def RUUVI_DRIVER_ERROR_SELFTEST : ruuvi_driver_status_t := 1 <<< 17

/-- Contents of the example flash: the records written so far, newest first. -/
abbrev KvState := List ((Nat × Nat) × ruuvi_driver_sensor_configuration_t)

/-- Modelled from the spec: a flash task that behaves as a correct key-value
store and is never busy. A store keeps `len` bytes under `(file, record)`; a
load copies the newest record under that key into the buffer. -/
def kv_flash : FlashTask KvState where
  task_flash_busy := fun _ => false
  task_flash_store := fun st file record data len =>
    (RUUVI_DRIVER_SUCCESS, ((file, record), data.take len) :: st)
  task_flash_load := fun st file record buf len =>
    match st.lookup (file, record) with
    | some data =>
      (RUUVI_DRIVER_SUCCESS, data.take len ++ buf.drop (data.take len).length, st)
    | none => (RUUVI_DRIVER_ERROR_NOT_FOUND, buf, st)

/-- A flash task that is always in the middle of an operation. Its store and
load, were they reached, would succeed and a load would zero the buffer. -/
def busy_flash : FlashTask Unit where
  task_flash_busy := fun _ => true
  task_flash_store := fun st _ _ _ _ => (RUUVI_DRIVER_SUCCESS, st)
  task_flash_load := fun st _ _ buf _ => (RUUVI_DRIVER_SUCCESS, buf.map (fun _ => 0), st)

/-- A flash task that is idle and whose store and load fail with the status
`RUUVI_DRIVER_ERROR_NOT_FOUND ||| RUUVI_DRIVER_ERROR_SELFTEST`. -/
def failing_flash : FlashTask Unit where
  task_flash_busy := fun _ => false
  task_flash_store := fun st _ _ _ _ =>
    (RUUVI_DRIVER_ERROR_NOT_FOUND ||| RUUVI_DRIVER_ERROR_SELFTEST, st)
  task_flash_load := fun st _ _ buf _ =>
    (RUUVI_DRIVER_ERROR_NOT_FOUND ||| RUUVI_DRIVER_ERROR_SELFTEST, buf, st)

/-- What "the NVM collaborator behaves as a correct key-value store" asks of a
flash task: once a whole blob has been stored with success under a key, loading
that many bytes from the same key into any buffer of that size succeeds and
fills the buffer with the blob. -/
def behaves_as_key_value_store {σ : Type} (nvm : FlashTask σ) : Prop :=
  ∀ (st : σ) (file record : Nat) (data buf : ruuvi_driver_sensor_configuration_t),
    (nvm.task_flash_store st file record data data.length).1 = RUUVI_DRIVER_SUCCESS →
    buf.length = data.length →
    (nvm.task_flash_load (nvm.task_flash_store st file record data data.length).2
        file record buf data.length).1 = RUUVI_DRIVER_SUCCESS ∧
    (nvm.task_flash_load (nvm.task_flash_store st file record data data.length).2
        file record buf data.length).2.1 = data

/-- The 12-byte configuration of the persistence scenario. Its first byte is
the sample rate in tenths of a hertz: 100 is 10 Hz. -/
def example_configuration : ruuvi_driver_sensor_configuration_t :=
  [100, 2, 3, 4, 5, 6, 7, 8, 9, 10, 11, 12]

/-- The context of the persistence scenario: capability "accel", providing two
fields, configuration stored at file 1, record 2. -/
def accel_ctx : rt_sensor_ctx_t KvState :=
  ctx_of (sensor_of "accel" 0b011) example_configuration 1 2

/-- A fresh context for the same flash keys, with a zeroed configuration. -/
def fresh_ctx : rt_sensor_ctx_t KvState :=
  ctx_of (sensor_of "accel" 0b011) (List.replicate 12 0) 1 2

/-- An empty flash and an empty call log. -/
def empty_world : World KvState := { hw := [], calls := [] }

/-- A world without hardware state and with an empty call log. -/
def unit_world : World Unit := { hw := (), calls := [] }

/-- A backend `configuration_set` that supports a sample rate of 12.5 Hz only:
it writes 125 (tenths of a hertz) over the first byte of the configuration it
was handed and returns success. -/
def rounding_configuration_set : ruuvi_driver_configuration_fp Unit :=
  fun hw _ _ configuration => (RUUVI_DRIVER_SUCCESS, 125 :: configuration.drop 1, hw)

/-- A context whose capability has the rounding `configuration_set`, with the
caller's request of 10 Hz in its configuration. -/
def rounding_ctx : rt_sensor_ctx_t Unit :=
  ctx_of { name := "accel", provides := 0b011,
           configuration_set := some rounding_configuration_set }
    example_configuration 1 2

/-- A backend `configuration_set` that fails with a self-test error and leaves
the configuration as it is. -/
def failing_configuration_set : ruuvi_driver_configuration_fp Unit :=
  fun hw _ _ configuration => (RUUVI_DRIVER_ERROR_SELFTEST, configuration, hw)

/-- A context whose capability has the failing `configuration_set`. -/
def failing_ctx : rt_sensor_ctx_t Unit :=
  ctx_of { name := "accel", provides := 0b011,
           configuration_set := some failing_configuration_set }
    example_configuration 1 2

/-- A backend init function that names the sensor after its handle's bus,
wires no operation, and reports a self-test error. -/
def example_init : ruuvi_driver_sensor_init_fp Unit :=
  fun hw _ bus handle => (RUUVI_DRIVER_ERROR_SELFTEST, sensor_of "env" (bus + handle), hw)

/-- A context with `example_init` as its init function, handle 7 on bus 2. -/
def init_ctx : rt_sensor_ctx_t Unit :=
  { sensor := sensor_of "" 0, init := some example_init,
    configuration := example_configuration, nvm_file := 1, nvm_record := 2,
    sensor_handle := 7, sensor_bus := 2 }

/-- Three contexts, two of which share the name "accel". -/
def example_backends : List (rt_sensor_ctx_t Unit) :=
  [ctx_of (sensor_of "env" 0b100) [] 1 1, ctx_of (sensor_of "accel" 0b001) [] 1 2,
   ctx_of (sensor_of "accel" 0b011) [] 1 3]

/-- A flash holding the example configuration under file 1, record 2, and an
empty call log. -/
def stored_world : World KvState :=
  { hw := [((1, 2), example_configuration)], calls := [] }

/-- Two capabilities, the first of which provides nothing. -/
def bare_providers : List (ruuvi_driver_sensor_t Unit) :=
  [sensor_of "none" 0, sensor_of "accel" 0b011]

/-! ## Null and busy guards -/

/-- C1: with an absent sensor context, initialize, configure, store and load
each return exactly `RUUVI_DRIVER_ERROR_NULL` and leave the world as it was:
the call log gains no entry (no backend init, no `configuration_set`, no flash
busy query, store or load) and the hardware state is untouched, whatever the
flash task is and whatever state it is in. -/
theorem null_context_is_null_error {σ : Type} (nvm : FlashTask σ) (w : World σ) :
    rt_sensor_initialize w none = (RUUVI_DRIVER_ERROR_NULL, none, w) ∧
    rt_sensor_configure w none = (RUUVI_DRIVER_ERROR_NULL, none, w) ∧
    rt_sensor_store nvm w none = (RUUVI_DRIVER_ERROR_NULL, none, w) ∧
    rt_sensor_load nvm w none = (RUUVI_DRIVER_ERROR_NULL, none, w) := by
  refine ⟨?_, ?_, ?_, ?_⟩ <;>
    simp [ rt_sensor_initialize, rt_sensor_configure, rt_sensor_store, rt_sensor_load,
      RUUVI_DRIVER_SUCCESS]

/-- C2: on a present context, while the flash task reports busy, store and load
each return exactly `RUUVI_DRIVER_ERROR_BUSY`, the only call recorded is the
busy query (no `task_flash_store`, no `task_flash_load`), the hardware state
is untouched and the context, its configuration included, is unchanged. -/
theorem busy_flash_is_busy_error {σ : Type} (nvm : FlashTask σ) (w : World σ)
    (s : rt_sensor_ctx_t σ) (hbusy : nvm.task_flash_busy w.hw = true) :
    rt_sensor_store nvm w (some s) =
      (RUUVI_DRIVER_ERROR_BUSY, some s,
        { hw := w.hw, calls := w.calls ++ [Call.task_flash_busy] }) ∧
    rt_sensor_load nvm w (some s) =
      (RUUVI_DRIVER_ERROR_BUSY, some s,
        { hw := w.hw, calls := w.calls ++ [Call.task_flash_busy] }) := by
  constructor <;>
    simp [rt_sensor_store, rt_sensor_load, World.record, hbusy, RUUVI_DRIVER_SUCCESS]

/-- Witness of C2 on the always-busy flash task. -/
theorem busy_flash_is_busy_error_witness :
    busy_flash.task_flash_busy unit_world.hw = true ∧
    rt_sensor_store busy_flash unit_world (some (ctx_of (sensor_of "accel" 3) [1, 2] 1 2)) =
      (RUUVI_DRIVER_ERROR_BUSY, some (ctx_of (sensor_of "accel" 3) [1, 2] 1 2),
        { hw := unit_world.hw, calls := unit_world.calls ++ [Call.task_flash_busy] }) ∧
    rt_sensor_load busy_flash unit_world (some (ctx_of (sensor_of "accel" 3) [1, 2] 1 2)) =
      (RUUVI_DRIVER_ERROR_BUSY, some (ctx_of (sensor_of "accel" 3) [1, 2] 1 2),
        { hw := unit_world.hw, calls := unit_world.calls ++ [Call.task_flash_busy] }) :=
  ⟨rfl, busy_flash_is_busy_error busy_flash unit_world _ rfl⟩

/-! ## Store and load -/

/-- The example flash task satisfies the key-value law. -/
theorem kv_flash_behaves : behaves_as_key_value_store kv_flash := by
  intro st file record data buf _ hlen
  simp [kv_flash, List.lookup, hlen]

/-- C3: round trip. If the flash task behaves as a correct key-value store and
is idle at both calls, then a store of a context that returns success, followed
by a load into a fresh context with the same `(file, record)` keys and a zeroed
configuration of the same size, returns success and leaves the fresh context
with a configuration equal, byte for byte, to the stored one; its other fields
are unchanged. -/
theorem store_then_load_round_trip {σ : Type} (nvm : FlashTask σ)
    (hkv : behaves_as_key_value_store nvm) (w : World σ) (c fresh : rt_sensor_ctx_t σ)
    (hfile : fresh.nvm_file = c.nvm_file) (hrecord : fresh.nvm_record = c.nvm_record)
    (hzero : fresh.configuration = List.replicate (sizeof_configuration c.configuration) 0)
    (hidle : nvm.task_flash_busy w.hw = false)
    (hstored : (rt_sensor_store nvm w (some c)).1 = RUUVI_DRIVER_SUCCESS)
    (hidle2 : nvm.task_flash_busy (rt_sensor_store nvm w (some c)).2.2.hw = false) :
    (rt_sensor_load nvm (rt_sensor_store nvm w (some c)).2.2 (some fresh)).1
      = RUUVI_DRIVER_SUCCESS ∧
    (rt_sensor_load nvm (rt_sensor_store nvm w (some c)).2.2 (some fresh)).2.1
      = some { fresh with configuration := c.configuration } := by
  have hlen : fresh.configuration.length = c.configuration.length := by
    rw [hzero]; simp [sizeof_configuration]
  simp only [rt_sensor_store, World.record, hidle, RUUVI_DRIVER_SUCCESS, Nat.zero_or,
    sizeof_configuration, Bool.false_eq_true, if_false] at hstored hidle2
  have h := hkv w.hw c.nvm_file c.nvm_record c.configuration fresh.configuration
    (by simpa [RUUVI_DRIVER_SUCCESS] using hstored) hlen
  simp only [rt_sensor_store, rt_sensor_load, World.record, hidle, hidle2,
    RUUVI_DRIVER_SUCCESS, Nat.zero_or, sizeof_configuration, Bool.false_eq_true, if_false,
    hfile, hrecord, hlen]
  simp only [RUUVI_DRIVER_SUCCESS] at h
  exact ⟨h.1, by rw [h.2]⟩

/-- Witness of C3: the 12-byte configuration stored to file 1, record 2 of the
key-value flash and loaded into a zeroed context. -/
theorem store_then_load_round_trip_witness :
    (rt_sensor_store kv_flash empty_world (some accel_ctx)).1 = RUUVI_DRIVER_SUCCESS ∧
    accel_ctx.configuration.length = 12 ∧
    (accel_ctx.nvm_file, accel_ctx.nvm_record) = (1, 2) ∧
    (rt_sensor_load kv_flash (rt_sensor_store kv_flash empty_world (some accel_ctx)).2.2
      (some fresh_ctx)).1 = RUUVI_DRIVER_SUCCESS ∧
    (rt_sensor_load kv_flash (rt_sensor_store kv_flash empty_world (some accel_ctx)).2.2
      (some fresh_ctx)).2.1 = some { fresh_ctx with configuration := accel_ctx.configuration } :=
  ⟨rfl, rfl, rfl,
    store_then_load_round_trip kv_flash kv_flash_behaves empty_world accel_ctx fresh_ctx
      rfl rfl rfl rfl rfl rfl⟩

/-! ## Configure -/

/-- Configure never changes the context: on every path the context returned is
the one passed in. -/
theorem rt_sensor_configure_context {σ : Type} (w : World σ) (s : rt_sensor_ctx_t σ) :
    (rt_sensor_configure w (some s)).2.1 = some s := by
  unfold rt_sensor_configure
  cases hcs : s.sensor.configuration_set <;> simp [hcs]

/-- C4 (evaluation at the failing input): the context asks for 10 Hz (first
configuration byte 100); the backend's `configuration_set` is called once with
that request, applies 12.5 Hz (writes 125) and returns success; configure
returns success, and the context's configuration still holds the requested
100, not the applied 125. The "actual configuration" that is logged is the
request as well. -/
theorem configure_keeps_requested_configuration :
    (rt_sensor_configure unit_world (some rounding_ctx)).1 = RUUVI_DRIVER_SUCCESS ∧
    (rounding_configuration_set () "accel" 0b011 rounding_ctx.configuration).2.1
      = [125, 2, 3, 4, 5, 6, 7, 8, 9, 10, 11, 12] ∧
    ((rt_sensor_configure unit_world (some rounding_ctx)).2.1.map
        (fun c => c.configuration))
      = some [100, 2, 3, 4, 5, 6, 7, 8, 9, 10, 11, 12] ∧
    (rt_sensor_configure unit_world (some rounding_ctx)).2.2.calls =
      [Call.LOG "\r\nAttempting to configure ", Call.LOG "accel", Call.LOG " with:\r\n",
       Call.log_sensor_configuration [100, 2, 3, 4, 5, 6, 7, 8, 9, 10, 11, 12],
       Call.configuration_set [100, 2, 3, 4, 5, 6, 7, 8, 9, 10, 11, 12],
       Call.LOG "Actual configuration:\r\n",
       Call.log_sensor_configuration [100, 2, 3, 4, 5, 6, 7, 8, 9, 10, 11, 12]] := by
  refine ⟨rfl, rfl, rfl, rfl⟩

/-- C5: on a present context whose capability has no `configuration_set`
operation, configure returns exactly `RUUVI_DRIVER_ERROR_INVALID_STATE`, the
world is as it was (no call is recorded, so the backend is not invoked) and the
context, its configuration included, is unchanged. -/
theorem configure_without_operation_is_invalid_state {σ : Type} (w : World σ)
    (s : rt_sensor_ctx_t σ) (hslot : s.sensor.configuration_set = none) :
    rt_sensor_configure w (some s) = (RUUVI_DRIVER_ERROR_INVALID_STATE, some s, w) := by
  simp [rt_sensor_configure, hslot, RUUVI_DRIVER_SUCCESS]

/-- Witness of C5 on a context whose capability wires no operation. -/
theorem configure_without_operation_is_invalid_state_witness :
    (accel_ctx.sensor.configuration_set = none) ∧
    rt_sensor_configure empty_world (some accel_ctx)
      = (RUUVI_DRIVER_ERROR_INVALID_STATE, some accel_ctx, empty_world) :=
  ⟨rfl, configure_without_operation_is_invalid_state empty_world accel_ctx rfl⟩

/-! ## Initialize -/

/-- C6: on a present context whose init function reference is absent,
initialize returns exactly `RUUVI_DRIVER_ERROR_NULL`, the world is as it was
(no call is recorded, so the backend is not invoked) and the context, its
capability handle included, is unchanged. -/
theorem initialize_without_init_is_null_error {σ : Type} (w : World σ)
    (s : rt_sensor_ctx_t σ) (hinit : s.init = none) :
    rt_sensor_initialize w (some s) = (RUUVI_DRIVER_ERROR_NULL, some s, w) := by
  simp [ rt_sensor_initialize, hinit, RUUVI_DRIVER_SUCCESS]

/-- Witness of C6 on a context built without an init function. -/
theorem initialize_without_init_is_null_error_witness :
    (accel_ctx.init = none) ∧
    rt_sensor_initialize empty_world (some accel_ctx)
      = (RUUVI_DRIVER_ERROR_NULL, some accel_ctx, empty_world) :=
  ⟨rfl, initialize_without_init_is_null_error empty_world accel_ctx rfl⟩

/-- C7: on a present context with an init function, initialize records exactly
one call, the backend init with the context's own bus and handle; the
capability handle of the context becomes the one that call produced, the other
fields of the context stay; and the status returned is the status of that call,
as it is. -/
theorem initialize_calls_init_once {σ : Type} (w : World σ) (s : rt_sensor_ctx_t σ)
    (init : ruuvi_driver_sensor_init_fp σ) (hinit : s.init = some init) :
    rt_sensor_initialize w (some s) =
      ((init w.hw s.sensor s.sensor_bus s.sensor_handle).1,
       some { s with sensor := (init w.hw s.sensor s.sensor_bus s.sensor_handle).2.1 },
       { hw := (init w.hw s.sensor s.sensor_bus s.sensor_handle).2.2,
         calls := w.calls ++ [Call.init s.sensor_bus s.sensor_handle] }) := by
  simp [ rt_sensor_initialize, hinit, World.record]

/-- Witness of C7: the example init function, which reports a self-test error,
is called once with bus 2 and handle 7. -/
theorem initialize_calls_init_once_witness :
    (init_ctx.init = some example_init) ∧
    ( rt_sensor_initialize unit_world (some init_ctx)).1 = RUUVI_DRIVER_ERROR_SELFTEST ∧
    ( rt_sensor_initialize unit_world (some init_ctx)).2.2.calls = [Call.init 2 7] ∧
    rt_sensor_initialize unit_world (some init_ctx) =
      ((example_init unit_world.hw init_ctx.sensor init_ctx.sensor_bus
          init_ctx.sensor_handle).1,
       some { init_ctx with sensor := (example_init unit_world.hw init_ctx.sensor
          init_ctx.sensor_bus init_ctx.sensor_handle).2.1 },
       { hw := (example_init unit_world.hw init_ctx.sensor init_ctx.sensor_bus
          init_ctx.sensor_handle).2.2,
         calls := unit_world.calls ++ [Call.init init_ctx.sensor_bus
          init_ctx.sensor_handle] }) :=
  ⟨rfl, rfl, rfl, initialize_calls_init_once unit_world init_ctx example_init rfl⟩

/-! ## Status propagation -/

/-- C8: the status of the collaborator is returned as it is. When configure
reaches the backend (present context, `configuration_set` present), its status
is the status `configuration_set` returned for the context's configuration;
when store or load reaches the flash task (present context, flash idle), its
status is the status `task_flash_store` or `task_flash_load` returned for the
context's keys, configuration and size. -/
theorem collaborator_status_is_returned {σ : Type} (w : World σ) (s : rt_sensor_ctx_t σ)
    (configuration_set : ruuvi_driver_configuration_fp σ)
    (hslot : s.sensor.configuration_set = some configuration_set)
    (nvm : FlashTask σ) (w2 : World σ) (s2 : rt_sensor_ctx_t σ)
    (hidle : nvm.task_flash_busy w2.hw = false) :
    (rt_sensor_configure w (some s)).1 =
      (configuration_set w.hw s.sensor.name s.sensor.provides s.configuration).1 ∧
    (rt_sensor_store nvm w2 (some s2)).1 =
      (nvm.task_flash_store w2.hw s2.nvm_file s2.nvm_record s2.configuration
        (sizeof_configuration s2.configuration)).1 ∧
    (rt_sensor_load nvm w2 (some s2)).1 =
      (nvm.task_flash_load w2.hw s2.nvm_file s2.nvm_record s2.configuration
        (sizeof_configuration s2.configuration)).1 := by
  refine ⟨?_, ?_, ?_⟩
  · simp [rt_sensor_configure, hslot, World.record, RUUVI_DRIVER_SUCCESS]
  · simp [rt_sensor_store, hidle, World.record, RUUVI_DRIVER_SUCCESS]
  · simp [rt_sensor_load, hidle, World.record, RUUVI_DRIVER_SUCCESS]

/-- Witness of C8: a backend failing with a self-test error and a flash task
failing with two flags set; each status comes back with exactly those bits. -/
theorem collaborator_status_is_returned_witness :
    (failing_ctx.sensor.configuration_set = some failing_configuration_set) ∧
    (failing_flash.task_flash_busy unit_world.hw = false) ∧
    (rt_sensor_configure unit_world (some failing_ctx)).1 = RUUVI_DRIVER_ERROR_SELFTEST ∧
    (rt_sensor_store failing_flash unit_world (some failing_ctx)).1 =
      (RUUVI_DRIVER_ERROR_NOT_FOUND ||| RUUVI_DRIVER_ERROR_SELFTEST) ∧
    (rt_sensor_load failing_flash unit_world (some failing_ctx)).1 =
      (RUUVI_DRIVER_ERROR_NOT_FOUND ||| RUUVI_DRIVER_ERROR_SELFTEST) ∧
    ((rt_sensor_configure unit_world (some failing_ctx)).1 =
      (failing_configuration_set unit_world.hw failing_ctx.sensor.name
        failing_ctx.sensor.provides failing_ctx.configuration).1 ∧
    (rt_sensor_store failing_flash unit_world (some failing_ctx)).1 =
      (failing_flash.task_flash_store unit_world.hw failing_ctx.nvm_file
        failing_ctx.nvm_record failing_ctx.configuration
        (sizeof_configuration failing_ctx.configuration)).1 ∧
    (rt_sensor_load failing_flash unit_world (some failing_ctx)).1 =
      (failing_flash.task_flash_load unit_world.hw failing_ctx.nvm_file
        failing_ctx.nvm_record failing_ctx.configuration
        (sizeof_configuration failing_ctx.configuration)).1) :=
  ⟨rfl, rfl, rfl, rfl, rfl,
    collaborator_status_is_returned unit_world failing_ctx failing_configuration_set rfl
      failing_flash unit_world failing_ctx rfl⟩

/-! ## Lookups -/

/-- The model of `strcmp` is zero exactly on equal strings. -/
theorem strcmp_eq_zero_iff (a b : String) : 0 = strcmp a b ↔ a = b := by
  unfold strcmp
  by_cases h : a = b
  · simp [h]
  · simp only [h, if_false, iff_false]
    split <;> decide

/-- A scan that is already holding a pointer stops and returns it. -/
theorem first_match_scan_found {α : Type} (l : List α) (count : Nat) (P : α → Prop)
    [DecidablePred P] (f : Nat → Option Nat → Option (Option Nat))
    (hf : ∀ ii p, f ii p =
      if count > ii ∧ p = none then
        match l[ii]? with
        | none => none
        | some c => f (ii + 1) (if P c then some ii else p)
      else some p)
    (ii k : Nat) : f ii (some k) = some (some k) := by
  rw [hf]; simp

/-- The loop shared by the two lookups, entered at `ii` without a pointer and
with `count` inside the array: it ends, returns the least index from `ii` on
whose element satisfies the test, and `NULL` exactly when there is none. -/
theorem first_match_scan_from {α : Type} (l : List α) (count : Nat) (P : α → Prop)
    [DecidablePred P] (f : Nat → Option Nat → Option (Option Nat))
    (hf : ∀ ii p, f ii p =
      if count > ii ∧ p = none then
        match l[ii]? with
        | none => none
        | some c => f (ii + 1) (if P c then some ii else p)
      else some p)
    (hcount : count ≤ l.length) :
    ∀ (n ii : Nat), count - ii = n →
      ∃ r, f ii none = some r ∧
        (∀ i, r = some i ↔
          (ii ≤ i ∧ i < count ∧ (∃ c, l[i]? = some c ∧ P c) ∧
            ∀ j, ii ≤ j → j < i → ∀ c, l[j]? = some c → ¬ P c)) ∧
        (r = none ↔ ∀ j, ii ≤ j → j < count → ∀ c, l[j]? = some c → ¬ P c) := by
  intro n
  induction n with
  | zero =>
    intro ii hn
    refine ⟨none, ?_, ?_, ?_⟩
    · rw [hf]
      have : ¬ count > ii := by omega
      simp [this]
    · intro i
      constructor
      · intro h; cases h
      · rintro ⟨h1, h2, -⟩; omega
    · constructor
      · intro _ j h1 h2; omega
      · intro _; rfl
  | succ n ih =>
    intro ii hn
    have hlt : ii < count := by omega
    have hget : l[ii]? = some (l.get ⟨ii, by omega⟩) := by
      simp [List.getElem?_eq_getElem (show ii < l.length by omega)]
    by_cases hP : P (l.get ⟨ii, by omega⟩)
    · refine ⟨some ii, ?_, ?_, ?_⟩
      · rw [hf, hget]
        simp only [hlt, gt_iff_lt, and_self, if_true, hP]
        exact first_match_scan_found l count P f hf (ii + 1) ii
      · intro i
        constructor
        · intro h
          have hi : ii = i := by injection h
          subst hi
          exact ⟨le_refl _, hlt, ⟨_, hget, hP⟩, fun j h1 h2 => by omega⟩
        · rintro ⟨h1, _, _, h4⟩
          by_cases hi : i = ii
          · rw [hi]
          · exact absurd hP (h4 ii (le_refl _) (by omega) _ hget)
      · constructor
        · intro h; cases h
        · intro h; exact absurd hP (h ii (le_refl _) hlt _ hget)
    · obtain ⟨r, hr, hsome, hnone⟩ := ih (ii + 1) (by omega)
      refine ⟨r, ?_, ?_, ?_⟩
      · rw [hf, hget]
        simp only [hlt, gt_iff_lt, and_self, if_true, hP, if_false]
        exact hr
      · intro i
        rw [hsome i]
        constructor
        · rintro ⟨h1, h2, h3, h4⟩
          refine ⟨by omega, h2, h3, ?_⟩
          intro j hj1 hj2 c hc
          by_cases hj : j = ii
          · subst hj
            rw [hget] at hc
            cases hc
            exact hP
          · exact h4 j (by omega) hj2 c hc
        · rintro ⟨h1, h2, ⟨c, hc, hPc⟩, h4⟩
          have hne : i ≠ ii := by
            intro hi
            subst hi
            rw [hget] at hc
            cases hc
            exact hP hPc
          exact ⟨by omega, h2, ⟨c, hc, hPc⟩, fun j hj1 hj2 => h4 j (by omega) hj2⟩
      · rw [hnone]
        constructor
        · intro h j hj1 hj2 c hc
          by_cases hj : j = ii
          · subst hj
            rw [hget] at hc
            cases hc
            exact hP
          · exact h j (by omega) hj2 c hc
        · intro h j hj1 hj2
          exact h j (by omega) hj2

/-- C9: with `count` inside the list, `rt_sensor_find_backend` returns (it
reads no element past `count`) a pointer `r` such that: `r` is the element at
index `i` exactly when `i < count`, the capability name at `i` equals the
query, and no smaller index has that name (so among duplicates the smallest
index wins); `r` is `NULL` exactly when no context among the first `count` has
that name; and `r` is `NULL` whenever `count = 0`. -/
theorem find_backend_returns_first_match {σ : Type} (sensor_list : List (rt_sensor_ctx_t σ))
    (count : Nat) (name : String) (hcount : count ≤ sensor_list.length) :
    ∃ r, rt_sensor_find_backend sensor_list count name = some r ∧
      (∀ i, r = some i ↔
        (i < count ∧ (∃ c, sensor_list[i]? = some c ∧ c.sensor.name = name) ∧
          ∀ j, j < i → ∀ c, sensor_list[j]? = some c → c.sensor.name ≠ name)) ∧
      (r = none ↔ ∀ j, j < count → ∀ c, sensor_list[j]? = some c → c.sensor.name ≠ name) ∧
      (count = 0 → r = none) := by
  obtain ⟨r, hr, hsome, hnone⟩ :=
    first_match_scan_from sensor_list count
      (fun c : rt_sensor_ctx_t σ => 0 = strcmp c.sensor.name name)
      (rt_sensor_find_backend_loop sensor_list count name)
      (by intro ii p; rw [rt_sensor_find_backend_loop]; cases sensor_list[ii]? <;> rfl)
      hcount count 0 rfl
  simp only [strcmp_eq_zero_iff, Nat.zero_le, true_and, forall_true_left] at hsome hnone
  refine ⟨r, hr, hsome, hnone, ?_⟩
  intro h0
  rw [hnone]
  intro j hj
  omega

/-- Witness of C9: among "env", "accel", "accel" the query "accel" finds
index 1, and "gyro" finds nothing. -/
theorem find_backend_returns_first_match_witness :
    3 ≤ example_backends.length ∧
    rt_sensor_find_backend example_backends 3 "accel" = some (some 1) ∧
    rt_sensor_find_backend example_backends 3 "gyro" = some none ∧
    rt_sensor_find_backend example_backends 0 "env" = some none ∧
    ∃ r, rt_sensor_find_backend example_backends 3 "accel" = some r ∧
      (∀ i, r = some i ↔
        (i < 3 ∧ (∃ c, example_backends[i]? = some c ∧ c.sensor.name = "accel") ∧
          ∀ j, j < i → ∀ c, example_backends[j]? = some c → c.sensor.name ≠ "accel")) ∧
      (r = none ↔
        ∀ j, j < 3 → ∀ c, example_backends[j]? = some c → c.sensor.name ≠ "accel") ∧
      (3 = 0 → r = none) :=
  ⟨by decide, by decide, by decide, by decide,
    find_backend_returns_first_match example_backends 3 "accel" (by decide)⟩

/-- C10: with `count` inside the list, `rt_sensor_find_provider` returns (it
reads no element past `count`) a pointer `r` such that: `r` is the element at
index `i` exactly when `i < count`, the `provides` mask at `i` satisfies
`(values AND provides) = values`, and no smaller index does; `r` is `NULL`
exactly when no capability among the first `count` satisfies it. For the
`provides` masks `0b001, 0b011, 0b010` the query `0b001` returns index 0 and
the query `0b100` returns `NULL`. -/
theorem find_provider_returns_first_match {σ : Type}
    (sensor_list : List (ruuvi_driver_sensor_t σ)) (count : Nat)
    (values : ruuvi_driver_sensor_data_fields_t) (hcount : count ≤ sensor_list.length) :
    (∃ r, rt_sensor_find_provider sensor_list count values = some r ∧
      (∀ i, r = some i ↔
        (i < count ∧ (∃ c, sensor_list[i]? = some c ∧ (values &&& c.provides) = values) ∧
          ∀ j, j < i → ∀ c, sensor_list[j]? = some c → (values &&& c.provides) ≠ values)) ∧
      (r = none ↔
        ∀ j, j < count → ∀ c, sensor_list[j]? = some c → (values &&& c.provides) ≠ values)) ∧
    example_providers.map (fun c => c.provides) = [0b001, 0b011, 0b010] ∧
    rt_sensor_find_provider example_providers 3 0b001 = some (some 0) ∧
    rt_sensor_find_provider example_providers 3 0b100 = some none := by
  obtain ⟨r, hr, hsome, hnone⟩ :=
    first_match_scan_from sensor_list count
      (fun c : ruuvi_driver_sensor_t σ => (values &&& c.provides) = values)
      (rt_sensor_find_provider_loop sensor_list count values)
      (by intro ii p; rw [rt_sensor_find_provider_loop]; cases sensor_list[ii]? <;> rfl)
      hcount count 0 rfl
  simp only [Nat.zero_le, true_and, forall_true_left] at hsome hnone
  exact ⟨⟨r, hr, hsome, hnone⟩, by decide, by decide, by decide⟩

/-- Witness of C10 on the three example capabilities: the query `0b010` finds
index 1, the first of the two that provide that field. -/
theorem find_provider_returns_first_match_witness :
    3 ≤ example_providers.length ∧
    rt_sensor_find_provider example_providers 3 0b010 = some (some 1) ∧
    ((∃ r, rt_sensor_find_provider example_providers 3 0b010 = some r ∧
      (∀ i, r = some i ↔
        (i < 3 ∧ (∃ c, example_providers[i]? = some c ∧ (0b010 &&& c.provides) = 0b010) ∧
          ∀ j, j < i → ∀ c, example_providers[j]? = some c →
            (0b010 &&& c.provides) ≠ 0b010)) ∧
      (r = none ↔
        ∀ j, j < 3 → ∀ c, example_providers[j]? = some c →
          (0b010 &&& c.provides) ≠ 0b010)) ∧
    example_providers.map (fun c => c.provides) = [0b001, 0b011, 0b010] ∧
    rt_sensor_find_provider example_providers 3 0b001 = some (some 0) ∧
    rt_sensor_find_provider example_providers 3 0b100 = some none) :=
  ⟨by decide, by decide,
    find_provider_returns_first_match example_providers 3 0b010 (by decide)⟩

/-! ## Requests issued to the flash task -/

/-- C11: on a present context, with the flash task idle, store records after
the busy query exactly one `task_flash_store` request, keyed by the context's
own `nvm_file` and `nvm_record`, whose data is the context's current
configuration and whose length is the full size of that configuration; the
hardware state after the call is the one that request produced. -/
theorem store_issues_one_write {σ : Type} (nvm : FlashTask σ) (w : World σ)
    (s : rt_sensor_ctx_t σ) (hidle : nvm.task_flash_busy w.hw = false) :
    (rt_sensor_store nvm w (some s)).2.2 =
      { hw := (nvm.task_flash_store w.hw s.nvm_file s.nvm_record s.configuration
          s.configuration.length).2,
        calls := w.calls ++ [Call.task_flash_busy,
          Call.task_flash_store s.nvm_file s.nvm_record s.configuration
            s.configuration.length] } := by
  simp [rt_sensor_store, hidle, World.record, sizeof_configuration]

/-- Witness of C11: the 12-byte example configuration is written once to
file 1, record 2 of the key-value flash. -/
theorem store_issues_one_write_witness :
    kv_flash.task_flash_busy empty_world.hw = false ∧
    (rt_sensor_store kv_flash empty_world (some accel_ctx)).2.2.calls =
      [Call.task_flash_busy,
       Call.task_flash_store 1 2 [100, 2, 3, 4, 5, 6, 7, 8, 9, 10, 11, 12] 12] ∧
    (rt_sensor_store kv_flash empty_world (some accel_ctx)).2.2 =
      { hw := (kv_flash.task_flash_store empty_world.hw accel_ctx.nvm_file
          accel_ctx.nvm_record accel_ctx.configuration accel_ctx.configuration.length).2,
        calls := empty_world.calls ++ [Call.task_flash_busy,
          Call.task_flash_store accel_ctx.nvm_file accel_ctx.nvm_record
            accel_ctx.configuration accel_ctx.configuration.length] } :=
  ⟨rfl, rfl, store_issues_one_write kv_flash empty_world accel_ctx rfl⟩

/-- C12: on a present context, with the flash task idle, load records after the
busy query exactly one `task_flash_load` request, keyed by the context's own
`nvm_file` and `nvm_record`, with the full size of the configuration; the
status is the status of that request, and the context's configuration becomes
the buffer contents that request returned, the other fields staying as they
were. -/
theorem load_issues_one_read {σ : Type} (nvm : FlashTask σ) (w : World σ)
    (s : rt_sensor_ctx_t σ) (hidle : nvm.task_flash_busy w.hw = false) :
    rt_sensor_load nvm w (some s) =
      ((nvm.task_flash_load w.hw s.nvm_file s.nvm_record s.configuration
          s.configuration.length).1,
       some { s with configuration :=
          (nvm.task_flash_load w.hw s.nvm_file s.nvm_record s.configuration
            s.configuration.length).2.1 },
       { hw := (nvm.task_flash_load w.hw s.nvm_file s.nvm_record s.configuration
          s.configuration.length).2.2,
         calls := w.calls ++ [Call.task_flash_busy,
          Call.task_flash_load s.nvm_file s.nvm_record s.configuration.length] }) := by
  simp [rt_sensor_load, hidle, World.record, sizeof_configuration, RUUVI_DRIVER_SUCCESS]

/-- Witness of C12: a zeroed context loads the 12 bytes persisted under file 1,
record 2. -/
theorem load_issues_one_read_witness :
    kv_flash.task_flash_busy stored_world.hw = false ∧
    (rt_sensor_load kv_flash stored_world (some fresh_ctx)).1 = RUUVI_DRIVER_SUCCESS ∧
    (rt_sensor_load kv_flash stored_world (some fresh_ctx)).2.2.calls =
      [Call.task_flash_busy, Call.task_flash_load 1 2 12] ∧
    ((rt_sensor_load kv_flash stored_world (some fresh_ctx)).2.1.map
        (fun c => c.configuration)) = some [100, 2, 3, 4, 5, 6, 7, 8, 9, 10, 11, 12] ∧
    rt_sensor_load kv_flash stored_world (some fresh_ctx) =
      ((kv_flash.task_flash_load stored_world.hw fresh_ctx.nvm_file fresh_ctx.nvm_record
          fresh_ctx.configuration fresh_ctx.configuration.length).1,
       some { fresh_ctx with configuration :=
          (kv_flash.task_flash_load stored_world.hw fresh_ctx.nvm_file fresh_ctx.nvm_record
            fresh_ctx.configuration fresh_ctx.configuration.length).2.1 },
       { hw := (kv_flash.task_flash_load stored_world.hw fresh_ctx.nvm_file
          fresh_ctx.nvm_record fresh_ctx.configuration fresh_ctx.configuration.length).2.2,
         calls := stored_world.calls ++ [Call.task_flash_busy,
          Call.task_flash_load fresh_ctx.nvm_file fresh_ctx.nvm_record
            fresh_ctx.configuration.length] }) :=
  ⟨rfl, rfl, rfl, rfl, load_issues_one_read kv_flash stored_world fresh_ctx rfl⟩

/-! ## Configuration after an operation, and frame -/

/-- C13 (evaluation at the failing input): a successful configure leaves a
stale configuration. The context asks for 10 Hz (first byte 100); the backend
applies 12.5 Hz, writes 125 into the configuration it was handed and returns
success; configure returns success, and the context's configuration is still
the caller's request, different from what the backend wrote. On the same data
the store and load parts of the invariant hold: after a successful store the
configuration is the data of the logged write, after a successful load it is
the persisted blob. -/
theorem successful_configure_leaves_stale_configuration :
    (rt_sensor_configure unit_world (some rounding_ctx)).1 = RUUVI_DRIVER_SUCCESS ∧
    rounding_ctx.sensor.configuration_set = some rounding_configuration_set ∧
    ((rt_sensor_configure unit_world (some rounding_ctx)).2.1.map
        (fun c => c.configuration)) = some rounding_ctx.configuration ∧
    ((rt_sensor_configure unit_world (some rounding_ctx)).2.1.map
        (fun c => c.configuration)) ≠
      some (rounding_configuration_set unit_world.hw rounding_ctx.sensor.name
        rounding_ctx.sensor.provides rounding_ctx.configuration).2.1 ∧
    ((rt_sensor_store kv_flash empty_world (some accel_ctx)).1 = RUUVI_DRIVER_SUCCESS ∧
      (rt_sensor_store kv_flash empty_world (some accel_ctx)).2.2.calls.getLast? =
        some (Call.task_flash_store 1 2 example_configuration 12) ∧
      ((rt_sensor_store kv_flash empty_world (some accel_ctx)).2.1.map
        (fun c => c.configuration)) = some example_configuration) ∧
    ((rt_sensor_load kv_flash stored_world (some fresh_ctx)).1 = RUUVI_DRIVER_SUCCESS ∧
      ((rt_sensor_load kv_flash stored_world (some fresh_ctx)).2.1.map
        (fun c => c.configuration)) = some example_configuration) := by
  refine ⟨rfl, rfl, rfl, by decide, ⟨rfl, rfl, rfl⟩, ⟨rfl, rfl⟩⟩

/-- C14: frame of the lifecycle operations on a present context, for every
flash task and every backend. Initialize returns the context with at most its
capability handle `sensor` replaced; store returns the context as it was; load
returns the context with at most its `configuration` replaced. -/
theorem lifecycle_frame {σ : Type} (nvm : FlashTask σ) (w : World σ)
    (s : rt_sensor_ctx_t σ) :
    (∃ sensor1, ( rt_sensor_initialize w (some s)).2.1 = some { s with sensor := sensor1 }) ∧
    (rt_sensor_store nvm w (some s)).2.1 = some s ∧
    (∃ configuration1,
      (rt_sensor_load nvm w (some s)).2.1 = some { s with configuration := configuration1 }) := by
  refine ⟨?_, ?_, ?_⟩
  · obtain ⟨sensor, init, configuration, file, record, handle, bus⟩ := s
    cases init with
    | none => exact ⟨sensor, rfl⟩
    | some init => exact ⟨_, rfl⟩
  · unfold rt_sensor_store
    by_cases hbusy : nvm.task_flash_busy (w.record Call.task_flash_busy).hw = true
    · simp [hbusy]
    · simp [hbusy]
  · unfold rt_sensor_load
    by_cases hbusy : nvm.task_flash_busy (w.record Call.task_flash_busy).hw = true
    · exact ⟨s.configuration, by simp [hbusy]⟩
    · exact ⟨_, by simp [hbusy]; rfl⟩

/-! ## Properties of the provider lookup -/

/-- With `count` inside the list, `rt_sensor_find_provider` returns the least
index below `count` whose `provides` contains `values`, and `NULL` exactly
when there is none. -/
theorem find_provider_scan {σ : Type} (sensor_list : List (ruuvi_driver_sensor_t σ))
    (count : Nat) (values : ruuvi_driver_sensor_data_fields_t)
    (hcount : count ≤ sensor_list.length) :
    ∃ r, rt_sensor_find_provider sensor_list count values = some r ∧
      (∀ i, r = some i ↔
        (i < count ∧ (∃ c, sensor_list[i]? = some c ∧ (values &&& c.provides) = values) ∧
          ∀ j, j < i → ∀ c, sensor_list[j]? = some c → (values &&& c.provides) ≠ values)) ∧
      (r = none ↔
        ∀ j, j < count → ∀ c, sensor_list[j]? = some c →
          (values &&& c.provides) ≠ values) := by
  obtain ⟨r, hr, hsome, hnone⟩ :=
    first_match_scan_from sensor_list count
      (fun c : ruuvi_driver_sensor_t σ => (values &&& c.provides) = values)
      (rt_sensor_find_provider_loop sensor_list count values)
      (by intro ii p; rw [rt_sensor_find_provider_loop]; cases sensor_list[ii]? <;> rfl)
      hcount count 0 rfl
  simp only [Nat.zero_le, true_and, forall_true_left] at hsome hnone
  exact ⟨r, hr, hsome, hnone⟩

/-- A mask that contains `m` contains every sub-mask of `m`. -/
theorem provides_submask (m1 m p : Nat) (hsub : m1 &&& m = m1) (hm : m &&& p = m) :
    m1 &&& p = m1 := by
  calc m1 &&& p = (m1 &&& m) &&& p := by rw [hsub]
    _ = m1 &&& (m &&& p) := Nat.land_assoc m1 m p
    _ = m1 := by rw [hm, hsub]

/-- C15: `rt_sensor_find_provider` is monotone in the requested mask. With
`count` inside the list and `m1` a sub-mask of `m` (`m1 AND m = m1`), if the
query for `m` returns the capability at index `i`, the query for `m1` returns
a capability at some index `j` with `j ≤ i`; in particular it is not `NULL`. -/
theorem find_provider_monotone {σ : Type} (sensor_list : List (ruuvi_driver_sensor_t σ))
    (count : Nat) (m m1 : ruuvi_driver_sensor_data_fields_t)
    (hcount : count ≤ sensor_list.length) (hsub : m1 &&& m = m1) (i : Nat)
    (hfound : rt_sensor_find_provider sensor_list count m = some (some i)) :
    ∃ j, j ≤ i ∧ rt_sensor_find_provider sensor_list count m1 = some (some j) := by
  obtain ⟨r, hr, hsome, -⟩ := find_provider_scan sensor_list count m hcount
  obtain ⟨r1, hr1, hsome1, hnone1⟩ := find_provider_scan sensor_list count m1 hcount
  have hri : r = some i := by
    rw [hr] at hfound
    exact Option.some.inj hfound
  obtain ⟨hi, ⟨c, hc, hm⟩, -⟩ := (hsome i).1 hri
  have hm1 : (m1 &&& c.provides) = m1 := provides_submask m1 m c.provides hsub hm
  cases hcase : r1 with
  | none =>
    exact absurd hm1 ((hnone1.1 hcase) i hi c hc)
  | some j =>
    refine ⟨j, ?_, by rw [hr1, hcase]⟩
    by_contra hlt
    obtain ⟨-, -, hleast⟩ := (hsome1 j).1 hcase
    exact hleast i (by omega) c hc hm1

/-- Witness of C15 on the three example capabilities: the query `0b011` finds
index 1, and its sub-mask `0b001` finds index 0. -/
theorem find_provider_monotone_witness :
    3 ≤ example_providers.length ∧ (0b001 &&& 0b011 = 0b001) ∧
    rt_sensor_find_provider example_providers 3 0b011 = some (some 1) ∧
    rt_sensor_find_provider example_providers 3 0b001 = some (some 0) ∧
    ∃ j, j ≤ 1 ∧ rt_sensor_find_provider example_providers 3 0b001 = some (some j) :=
  ⟨by decide, by decide, by decide, by decide,
    find_provider_monotone example_providers 3 0b011 0b001 (by decide) (by decide) 1
      (by decide)⟩

/-- C16: with `1 ≤ count` and `count` inside the list, the query with the
empty mask `0` returns the capability at index 0, whatever its `provides`
mask is. -/
theorem find_provider_empty_mask {σ : Type} (sensor_list : List (ruuvi_driver_sensor_t σ))
    (count : Nat) (hone : 1 ≤ count) (hcount : count ≤ sensor_list.length) :
    rt_sensor_find_provider sensor_list count 0 = some (some 0) := by
  obtain ⟨r, hr, hsome, -⟩ := find_provider_scan sensor_list count 0 hcount
  have hget : sensor_list[0]? = some (sensor_list.get ⟨0, by omega⟩) := by
    simp [List.getElem?_eq_getElem (show 0 < sensor_list.length by omega)]
  have h0 : r = some 0 :=
    (hsome 0).2 ⟨by omega, ⟨_, hget, Nat.zero_and _⟩, fun j hj => by omega⟩
  rw [hr, h0]

/-- Witness of C16: the first of the two capabilities provides nothing and is
returned for the empty mask. -/
theorem find_provider_empty_mask_witness :
    1 ≤ 2 ∧ 2 ≤ bare_providers.length ∧
    (bare_providers.map (fun c => c.provides)) = [0, 0b011] ∧
    rt_sensor_find_provider bare_providers 2 0 = some (some 0) :=
  ⟨by decide, by decide, by decide,
    find_provider_empty_mask bare_providers 2 (by decide) (by decide)⟩

end TaskSensor
